import Mathlib

/-!
Verification development for the ESTSBike club-management repository.

The server side is embedded shallowly:
* `JsVal` models the JavaScript values that flow between the query gateway
  (`www/server/config/db.js`) and the route handlers, so that property access,
  truthiness, strict equality and array destructuring behave as in JavaScript.
* The five relational tables of `www/server/database/estsbike.sql` are modelled
  by `DB`; each parameterized SQL statement used by the routes is a function on
  `DB`, with the schema's key/foreign-key constraints raising driver errors.
* Each route handler is a function `DB → args → HResult × DB`, translated
  statement by statement from the route files.
The legacy in-browser stores (`Member.js` / `Event.js`) are embedded separately
at the end.
-/

namespace ESTSBike

/-- A JavaScript value, restricted to the shapes produced by the gateway and
the route handlers: `undefined`, numbers (all numbers appearing here are
non-negative integers), strings, arrays and plain objects. -/
inductive JsVal where
  | undefined : JsVal
  | num : Nat → JsVal
  | str : String → JsVal
  | arr : List JsVal → JsVal
  | obj : List (String × JsVal) → JsVal

/-- First binding of an object field list, `undefined` when absent. -/
def fieldLookup : List (String × JsVal) → String → JsVal
  | [], _ => .undefined
  | (k, v) :: fs, key => if k = key then v else fieldLookup fs key

/-- Property access `v.k` on a value that is not `undefined`/`null`.
Arrays and strings expose `length`; other keys on non-objects give
`undefined`, as in JavaScript. -/
def JsVal.field : JsVal → String → JsVal
  | .obj fs, k => fieldLookup fs k
  | .arr xs, k => if k = "length" then .num xs.length else .undefined
  | .str s, k => if k = "length" then .num s.length else .undefined
  | _, _ => .undefined

/-- Property access `v.k` as executed: reading a property of `undefined`
throws a `TypeError`. -/
def JsVal.getE : JsVal → String → Except String JsVal
  | .undefined, _ => .error "TypeError: Cannot read properties of undefined"
  | v, k => .ok (v.field k)

/-- Index access `v[i]` for the shapes used by the handlers: arrays yield the
element (or `undefined` past the end); plain objects have no numeric keys
here, so indexing them yields `undefined`. -/
def JsVal.index : JsVal → Nat → JsVal
  | .arr xs, i => xs.getD i .undefined
  | _, _ => .undefined

/-- JavaScript truthiness of the modelled values. -/
def JsVal.truthy : JsVal → Bool
  | .undefined => false
  | .num n => n != 0
  | .str s => s != ""
  | .arr _ => true
  | .obj _ => true

/-- Strict equality `===` as used by the handlers: it is only ever applied
with at least one primitive operand, and two distinct object/array
constructions are never identical references. -/
def jsEq : JsVal → JsVal → Bool
  | .undefined, .undefined => true
  | .num a, .num b => a == b
  | .str a, .str b => a == b
  | _, _ => false

/-- Array-destructuring `const [x] = v`: JavaScript requires `v` to be
iterable.  Arrays (and strings) are; plain objects — in particular the
`{status, data}` literals returned by `sendResponse` in db.js — are not,
so destructuring them throws a `TypeError`. -/
def JsVal.iterFirst : JsVal → Except String JsVal
  | .arr [] => .ok .undefined
  | .arr (x :: _) => .ok x
  | .str s =>
      match s.data with
      | [] => .ok .undefined
      | c :: _ => .ok (.str (String.mk [c]))
  | _ => .error "TypeError: object is not iterable"

/-- Numeric payload of a `JsVal`, for positions where the handlers feed a
value into a numeric slot (HTTP status, SQL parameter). -/
def jsNat : JsVal → Nat
  | .num n => n
  | _ => 0

/-- String payload of a `JsVal`; `sendError` in db.js sends `""` when the
error argument is not a string. -/
def jsStr : JsVal → String
  | .str s => s
  | _ => ""

/-- `v > 0` on a JavaScript value: true only for a number greater than zero
(`undefined > 0` is false). -/
def jsGtZero : JsVal → Bool
  | .num n => 0 < n
  | _ => false

/-- Truthiness of a parameter that went through `number()` in db.js:
`number` maps non-numeric input to `undefined`, and the handlers test the
result with `!id`, which also rejects `0`. -/
def optTruthy : Option Nat → Bool
  | none => false
  | some n => n != 0

/-! ## The query gateway (www/server/config/db.js) -/

/-- What the mysql2 driver hands back for one successful statement: either an
array of row objects (SELECT) or a result header carrying `affectedRows` and
`insertId` (INSERT/UPDATE/DELETE). -/
inductive ExecResult where
  | rows : List JsVal → ExecResult
  | header : Nat → Nat → ExecResult

/-- `execute` in db.js: it runs the statement and `catch`es every driver
error, returning `void 0` (here `none`) instead of rethrowing.  A driver
error therefore never propagates to `sendResponse`'s own `catch`. -/
def executeJS : Except Unit ExecResult → Option ExecResult
  | .ok r => some r
  | .error _ => none

/-- `sendResponse` in db.js, applied to the value `execute` returned.  The
branches mirror the source in order: a result with `affectedRows` defined is
mapped to 404 when zero rows were affected and to the requested status with a
`"N row(s) affected"` message otherwise; a missing result (`undefined`, i.e. a
swallowed driver error), a non-array or an empty row array is mapped to 404
`"No data found"`; a non-empty row array is passed through `transform`.  The
surrounding `try/catch` that would produce `{status: 500, error: "Database
query failed"}` can only fire if `transform` throws, because `execute` never
throws; the transforms used by the routes are total, so that branch is
unreachable and is not represented. -/
def sendResponse (res : Option ExecResult) (transform : List JsVal → JsVal)
    (okStatus : Nat) : JsVal :=
  match res with
  | some (.header aff _) =>
      if aff = 0 then
        .obj [("status", .num 404), ("data", .obj [("message", .str "No data found or affected")])]
      else
        .obj [("status", .num okStatus),
              ("data", .obj [("message", .str (toString aff ++ " row(s) affected"))])]
  | some (.rows []) =>
      .obj [("status", .num 404), ("data", .obj [("message", .str "No data found")])]
  | some (.rows (r :: rs)) =>
      .obj [("status", .num okStatus), ("data", transform (r :: rs))]
  | none =>
      .obj [("status", .num 404), ("data", .obj [("message", .str "No data found")])]

/-- The gateway as the routes see it: driver outcome fed through `execute`'s
error-swallowing wrapper and then normalized by `sendResponse`. -/
def gatewayOutcome (driver : Except Unit ExecResult) (transform : List JsVal → JsVal)
    (okStatus : Nat) : JsVal :=
  sendResponse (executeJS driver) transform okStatus

/-- The `(rows) => rows` transform used throughout the routes. -/
def rowsTransform (rs : List JsVal) : JsVal := .arr rs

/-- Placeholder for transforms that inspect `result.affectedRows`: they are
passed to `sendResponse` by the write routes but are dead code, because
`sendResponse` only invokes its transform on a non-empty row array, and a
write statement yields a header, never rows.  On a row array, `affectedRows`
is `undefined` (falsy), so the source lambda would fall into its `sendError`
arm and return `undefined`. -/
def deadWriteTransform (_ : List JsVal) : JsVal := .undefined

/-! ## The relational store (www/server/database/estsbike.sql)

Five tables: `event_types`, `members`, `events`,
`member_preferred_event_types` (composite primary key, both foreign keys
`ON DELETE CASCADE`) and `member_events` (composite primary key, both foreign
keys `ON DELETE CASCADE`); `events.type_id` references `event_types`
`ON DELETE CASCADE`.  Audit timestamps are never consumed and are omitted. -/

/-- A row of `event_types` (`name` is `UNIQUE NOT NULL`). -/
structure EventTypeRow where
  id : Nat
  name : String
deriving DecidableEq, Repr

/-- A row of `members`. -/
structure MemberRow where
  id : Nat
  name : String
deriving DecidableEq, Repr

/-- A row of `events` (`type_id` references `event_types`). -/
structure EventRow where
  id : Nat
  typeId : Nat
  name : String
  date : String
deriving DecidableEq, Repr

/-- The store state: the five tables plus the `AUTO_INCREMENT` counters of the
three primary tables.  The junction tables hold `(member_id, event_type_id)`
and `(member_id, event_id)` pairs. -/
structure DB where
  eventTypes : List EventTypeRow
  members : List MemberRow
  events : List EventRow
  prefs : List (Nat × Nat)
  regs : List (Nat × Nat)
  nextTypeId : Nat
  nextMemberId : Nat
  nextEventId : Nat
deriving DecidableEq, Repr

def memberExists (db : DB) (m : Nat) : Bool :=
  db.members.any fun r => r.id == m

def eventTypeExists (db : DB) (t : Nat) : Bool :=
  db.eventTypes.any fun r => r.id == t

def eventExists (db : DB) (e : Nat) : Bool :=
  db.events.any fun r => r.id == e

/-- The preference rows of one member, as the list of preferred type ids. -/
def prefsFor (db : DB) (m : Nat) : List Nat :=
  (db.prefs.filter fun p => p.1 == m).map Prod.snd

/-- The registration rows of one member, as the list of event ids. -/
def regsFor (db : DB) (m : Nat) : List Nat :=
  (db.regs.filter fun p => p.1 == m).map Prod.snd

/-- `COUNT(*) FROM events WHERE type_id = ?`. -/
def countEventsWithType (db : DB) (t : Nat) : Nat :=
  (db.events.filter fun e => e.typeId == t).length

/-- `COUNT(*) FROM member_preferred_event_types WHERE event_type_id = ?`. -/
def countPrefsWithType (db : DB) (t : Nat) : Nat :=
  (db.prefs.filter fun p => p.2 == t).length

/-- Row encoding handed to the driver for a `SELECT * FROM members` hit. -/
def encodeMemberRow (r : MemberRow) : JsVal :=
  .obj [("id", .num r.id), ("name", .str r.name)]

def encodeEventTypeRow (r : EventTypeRow) : JsVal :=
  .obj [("id", .num r.id), ("name", .str r.name)]

def encodeEventRow (r : EventRow) : JsVal :=
  .obj [("id", .num r.id), ("type_id", .num r.typeId),
        ("name", .str r.name), ("date", .str r.date)]

/-- The one-row result of a `SELECT COUNT(*) as count` statement. -/
def countRow (n : Nat) : JsVal := .obj [("count", .num n)]

/-! ### Statement semantics

Reads are deterministic on the store and never raise, so they yield an
`ExecResult` directly.  Writes yield `Except Unit (ExecResult × DB)`: a
constraint violation (duplicate key, foreign key, or an `undefined` bind
parameter, which mysql2 rejects) raises a driver error and leaves the store
unchanged.  `UPDATE` statements report the number of rows matched by the
`WHERE` clause as `affectedRows` in this embedding. -/

/-- `SELECT * FROM members WHERE id = ?`. -/
def qCheckMemberExists (db : DB) (m : Nat) : ExecResult :=
  .rows ((db.members.filter fun r => r.id == m).map encodeMemberRow)

/-- `SELECT * FROM events WHERE id = ?`. -/
def qCheckEventExists (db : DB) (e : Nat) : ExecResult :=
  .rows ((db.events.filter fun r => r.id == e).map encodeEventRow)

/-- `SELECT COUNT(*) as count FROM member_preferred_event_types WHERE
member_id = ? AND event_type_id = ?`. -/
def qCheckMemberPreference (db : DB) (m t : Nat) : ExecResult :=
  .rows [countRow ((db.prefs.filter fun p => p.1 == m && p.2 == t).length)]

/-- `SELECT * FROM event_types`. -/
def qSelectAllEventTypes (db : DB) : ExecResult :=
  .rows (db.eventTypes.map encodeEventTypeRow)

/-- `SELECT * FROM event_types WHERE id = ?`. -/
def qSelectEventTypeById (db : DB) (t : Nat) : ExecResult :=
  .rows ((db.eventTypes.filter fun r => r.id == t).map encodeEventTypeRow)

/-- `SELECT COUNT(*) as count FROM events WHERE type_id = ?`. -/
def qCheckEventsWithType (db : DB) (t : Nat) : ExecResult :=
  .rows [countRow (countEventsWithType db t)]

/-- `SELECT COUNT(*) as count FROM member_preferred_event_types WHERE
event_type_id = ?`. -/
def qCheckMembersWithType (db : DB) (t : Nat) : ExecResult :=
  .rows [countRow (countPrefsWithType db t)]

/-- `SELECT * FROM members WHERE id = ?` (MemberRoutes). -/
def qGetMemberById (db : DB) (m : Nat) : ExecResult :=
  .rows ((db.members.filter fun r => r.id == m).map encodeMemberRow)

/-- `INSERT INTO member_events (member_id, event_id) VALUES (?, ?)`: raises on
a duplicate of the composite primary key or on a dangling foreign key. -/
def qRegisterMemberEvent (db : DB) (m e : Nat) : Except Unit (ExecResult × DB) :=
  if (m, e) ∈ db.regs then .error ()
  else if ¬ memberExists db m ∨ ¬ eventExists db e then .error ()
  else .ok (.header 1 0, { db with regs := db.regs ++ [(m, e)] })

/-- `DELETE FROM member_events WHERE member_id = ? AND event_id = ?`. -/
def qDeleteMemberEvent (db : DB) (m e : Nat) : Except Unit (ExecResult × DB) :=
  .ok (.header (db.regs.filter fun p => p.1 == m && p.2 == e).length 0,
       { db with regs := db.regs.filter fun p => ¬ (p.1 == m && p.2 == e) })

/-- `INSERT INTO event_types (name) VALUES (?)`: `name` is `UNIQUE`. -/
def qInsertEventType (db : DB) (nm : String) : Except Unit (ExecResult × DB) :=
  if db.eventTypes.any fun r => r.name == nm then .error ()
  else .ok (.header 1 db.nextTypeId,
            { db with eventTypes := db.eventTypes ++ [⟨db.nextTypeId, nm⟩],
                      nextTypeId := db.nextTypeId + 1 })

/-- `UPDATE event_types SET name = ? WHERE id = ?`: raises when the new name
collides with the `UNIQUE` name of a different row that the update would keep
distinct; otherwise reports the matched rows. -/
def qUpdateEventType (db : DB) (nm : String) (t : Nat) : Except Unit (ExecResult × DB) :=
  if (db.eventTypes.any fun r => r.id == t) ∧
      db.eventTypes.any fun r => r.id != t && r.name == nm then .error ()
  else .ok (.header (db.eventTypes.filter fun r => r.id == t).length 0,
            { db with eventTypes :=
                db.eventTypes.map fun r => if r.id == t then ⟨r.id, nm⟩ else r })

/-- `DELETE FROM event_types WHERE id = ?`, applying the schema's cascades:
events of the type are deleted, which cascades their registrations, and
preference rows of the type are deleted. -/
def qDeleteEventType (db : DB) (t : Nat) : Except Unit (ExecResult × DB) :=
  let removedEvents := (db.events.filter fun e => e.typeId == t).map EventRow.id
  .ok (.header (db.eventTypes.filter fun r => r.id == t).length 0,
       { db with eventTypes := db.eventTypes.filter fun r => r.id != t,
                 events := db.events.filter fun e => e.typeId != t,
                 prefs := db.prefs.filter fun p => p.2 != t,
                 regs := db.regs.filter fun p => p.2 ∉ removedEvents })

/-- `INSERT INTO members (name) VALUES (?)`. -/
def qInsertMember (db : DB) (nm : String) : Except Unit (ExecResult × DB) :=
  .ok (.header 1 db.nextMemberId,
       { db with members := db.members ++ [⟨db.nextMemberId, nm⟩],
                 nextMemberId := db.nextMemberId + 1 })

/-- `UPDATE members SET name = ? WHERE id = ?`; the id parameter may be the
`undefined` produced by `number()`, which the driver rejects. -/
def qUpdateMember (db : DB) (nm : String) (mOpt : Option Nat) : Except Unit (ExecResult × DB) :=
  match mOpt with
  | none => .error ()
  | some m =>
      .ok (.header (db.members.filter fun r => r.id == m).length 0,
           { db with members := db.members.map fun r => if r.id == m then ⟨r.id, nm⟩ else r })

/-- `DELETE FROM members WHERE id = ?`, applying the schema's cascades on both
junction tables. -/
def qDeleteMember (db : DB) (m : Nat) : Except Unit (ExecResult × DB) :=
  .ok (.header (db.members.filter fun r => r.id == m).length 0,
       { db with members := db.members.filter fun r => r.id != m,
                 prefs := db.prefs.filter fun p => p.1 != m,
                 regs := db.regs.filter fun p => p.1 != m })

/-- `DELETE FROM member_events WHERE member_id = ?`. -/
def qDeleteMemberEvents (db : DB) (mOpt : Option Nat) : Except Unit (ExecResult × DB) :=
  match mOpt with
  | none => .error ()
  | some m =>
      .ok (.header (db.regs.filter fun p => p.1 == m).length 0,
           { db with regs := db.regs.filter fun p => p.1 != m })

/-- `DELETE FROM member_preferred_event_types WHERE member_id = ?`. -/
def qDeletePreferredEventTypes (db : DB) (mOpt : Option Nat) : Except Unit (ExecResult × DB) :=
  match mOpt with
  | none => .error ()
  | some m =>
      .ok (.header (db.prefs.filter fun p => p.1 == m).length 0,
           { db with prefs := db.prefs.filter fun p => p.1 != m })

/-- `INSERT INTO member_preferred_event_types (member_id, event_type_id)
VALUES ?` with a list of `[memberId, typeId]` pairs.  The routes run this
through `connection.execute`, i.e. as a MySQL prepared statement, and
`VALUES ?` cannot be prepared: expanding a nested array into
`(1,2),(1,3)` is a `query()`-only (sqlstring) feature, so the driver raises
for every input and no row is ever inserted — the table is untouched
regardless of the member id or the list. -/
def qInsertPreferredEventTypes (_db : DB) (_mOpt : Option Nat) (_ts : List Nat) :
    Except Unit (ExecResult × DB) :=
  .error ()

/-- `execute`'s behaviour around one write statement: a driver error is
caught and becomes `undefined` (`none`), with the store untouched. -/
def runWrite (r : Except Unit (ExecResult × DB)) (db : DB) : Option ExecResult × DB :=
  match r with
  | .error _ => (none, db)
  | .ok (res, db1) => (some res, db1)

/-! ## Route handlers -/

/-- What one handler invocation does to the HTTP response: `text` is
`sendError` / `response.status(s).end(msg)`, `json` is
`response.status(s).json(v)`, `crash` is an uncaught exception (the request
gets no reply), and `silent` is a handler that returns without ever sending a
response. -/
inductive HResult where
  | text : Nat → String → HResult
  | json : Nat → JsVal → HResult
  | crash : String → HResult
  | silent : HResult

/-- The HTTP status actually sent, if any. -/
def HResult.status : HResult → Option Nat
  | .text s _ => some s
  | .json s _ => some s
  | .crash _ => none
  | .silent => none

/-- `registerMemberToEvent` (routes/MemberEventRoutes), translated statement
by statement.  The ids are the results of `number()` on the path parameters.
Each gateway call is written `const [x] = await sendResponse(...)`: the
envelope object returned by `sendResponse` is array-destructured, which is
where the handler throws for every request that passes the id check. -/
def registerMemberToEvent (db : DB) (memberIdOpt eventIdOpt : Option Nat) : HResult × DB :=
  if ¬ optTruthy memberIdOpt ∨ ¬ optTruthy eventIdOpt then
    (.text 400 "Invalid member or event ID", db)
  else
    let m := memberIdOpt.getD 0
    let e := eventIdOpt.getD 0
    let env1 := sendResponse (some (qCheckMemberExists db m)) rowsTransform 200
    match env1.iterFirst with
    | .error msg => (.crash msg, db)
    | .ok members =>
      match members.getE "length" with
      | .error msg => (.crash msg, db)
      | .ok mlen =>
        if ¬ mlen.truthy then (.text 404 "Member not found", db)
        else
          let env2 := sendResponse (some (qCheckEventExists db e)) rowsTransform 200
          match env2.iterFirst with
          | .error msg => (.crash msg, db)
          | .ok events =>
            match events.getE "length" with
            | .error msg => (.crash msg, db)
            | .ok elen =>
              if ¬ elen.truthy then (.text 404 "Event not found", db)
              else
                let typeId := (events.index 0).field "type_id"
                let env3 := sendResponse
                  (some (qCheckMemberPreference db m (jsNat typeId))) rowsTransform 200
                match env3.iterFirst with
                | .error msg => (.crash msg, db)
                | .ok preferences =>
                  match preferences.getE "count" with
                  | .error msg => (.crash msg, db)
                  | .ok cnt =>
                    if jsEq cnt (.num 0) then
                      (.text 400 "Member does not prefer this event type", db)
                    else
                      -- the final sendResponse's envelope is discarded and
                      -- sendResponse itself never touches the response object,
                      -- so even a successful insert sends no reply
                      let (_, db1) := runWrite (qRegisterMemberEvent db m e) db
                      (.silent, db1)

/-- `unregisterMemberFromEvent` (routes/MemberEventRoutes): the DELETE yields
a result header, so the transform inspecting `affectedRows` never runs and
the handler returns without sending a response. -/
def unregisterMemberFromEvent (db : DB) (memberIdOpt eventIdOpt : Option Nat) : HResult × DB :=
  if ¬ optTruthy memberIdOpt ∨ ¬ optTruthy eventIdOpt then
    (.text 400 "Invalid member or event ID", db)
  else
    let (_, db1) := runWrite (qDeleteMemberEvent db (memberIdOpt.getD 0) (eventIdOpt.getD 0)) db
    (.silent, db1)

/-- `createEventType` (routes/EventTypesRoutes): the body's `name` is only
checked for truthiness (`if (!name)`), then inserted. -/
def createEventType (db : DB) (nameOpt : Option String) : HResult × DB :=
  let nameTruthy := match nameOpt with | some s => s != "" | none => false
  if !nameTruthy then (.text 400 "Name is required", db)
  else
    let (res, db1) := runWrite (qInsertEventType db (nameOpt.getD "")) db
    let env := sendResponse res deadWriteTransform 201
    if jsEq (env.field "status") (.num 201) then (.json 201 (env.field "data"), db1)
    else (.text (jsNat (env.field "status")) (jsStr ((env.field "data").field "message")), db1)

/-- `updateEventTypeById` (routes/EventTypesRoutes): `if (!id || !name)`
rejects with 400 "Name is required" before anything touches the store; only
then is the UPDATE issued, whose zero-rows-affected outcome the gateway turns
into 404. -/
def updateEventTypeById (db : DB) (idOpt : Option Nat) (nameOpt : Option String) :
    HResult × DB :=
  let nameTruthy := match nameOpt with | some s => s != "" | none => false
  if !optTruthy idOpt || !nameTruthy then (.text 400 "Name is required", db)
  else
    let (res, db1) := runWrite (qUpdateEventType db (nameOpt.getD "") (idOpt.getD 0)) db
    let env := sendResponse res deadWriteTransform 200
    if jsEq (env.field "status") (.num 200) then (.json 200 (env.field "data"), db1)
    else (.text (jsNat (env.field "status")) (jsStr ((env.field "data").field "message")), db1)

/-- `deleteEventTypeById` (routes/EventTypesRoutes): counts dependent events,
then dependent preference rows, refusing with 400 while either is positive;
only then issues the DELETE. -/
def deleteEventTypeById (db : DB) (idOpt : Option Nat) : HResult × DB :=
  if ¬ optTruthy idOpt then (.text 400 "You must indicate the event type ID", db)
  else
    let t := idOpt.getD 0
    let env1 := sendResponse (some (qCheckEventsWithType db t)) rowsTransform 200
    match ((env1.field "data").index 0).getE "count" with
    | .error msg => (.crash msg, db)
    | .ok evCnt =>
      if jsGtZero evCnt then
        (.text 400 "Cannot delete event type that is being used by events", db)
      else
        let env2 := sendResponse (some (qCheckMembersWithType db t)) rowsTransform 200
        match ((env2.field "data").index 0).getE "count" with
        | .error msg => (.crash msg, db)
        | .ok prefCnt =>
          if jsGtZero prefCnt then
            (.text 400 "Cannot delete event type that is preferred by members", db)
          else
            let (res, db1) := runWrite (qDeleteEventType db t) db
            let env3 := sendResponse res deadWriteTransform 200
            if jsEq (env3.field "status") (.num 200) then
              (.json 200 (env3.field "data"), db1)
            else
              (.text (jsNat (env3.field "status"))
                     (jsStr ((env3.field "data").field "message")), db1)

/-- `createMember` (routes/MemberRoutes): `if (!name)` only; on success the
handler reads `result.data.insertId` from the gateway envelope, but a write
envelope carries only a message, so the id it propagates is `undefined`. -/
def createMember (db : DB) (nameOpt : Option String) (prefsOpt : Option (List Nat)) :
    HResult × DB :=
  let nameTruthy := match nameOpt with | some s => s != "" | none => false
  if !nameTruthy then (.text 400 "Name is required", db)
  else
    let (res, db1) := runWrite (qInsertMember db (nameOpt.getD "")) db
    let env := sendResponse res rowsTransform 200
    if ¬ jsEq (env.field "status") (.num 200) then
      (.text (jsNat (env.field "status")) (jsStr ((env.field "data").field "message")), db1)
    else
      let memberIdVal := (env.field "data").field "insertId"
      let successBody : JsVal := .obj
        [("message", .str "Member created successfully"),
         ("member", .obj
           [("id", memberIdVal), ("name", .str (nameOpt.getD "")),
            ("preferredEventTypes", .arr ((prefsOpt.getD []).map JsVal.num))])]
      match prefsOpt with
      | some ts =>
        if 0 < ts.length then
          let mPar := match memberIdVal with | .num n => some n | _ => none
          let (res2, db2) := runWrite (qInsertPreferredEventTypes db1 mPar ts) db1
          let env2 := sendResponse res2 rowsTransform 200
          if ¬ jsEq (env2.field "status") (.num 200) then
            (.text (jsNat (env2.field "status"))
                   (jsStr ((env2.field "data").field "message")), db2)
          else (.json 200 successBody, db2)
        else (.json 200 successBody, db1)
      | none => (.json 200 successBody, db1)

/-- `updateMemberInfo` (routes/MemberRoutes): `if (!name)` first; then the
UPDATE on the name (404 when it matches no row); then the member's preference
rows are deleted unconditionally and, when a non-empty list was sent, the
bulk re-insert is attempted with its envelope discarded — its failure is
invisible to the 200 reply that echoes the request list. -/
def updateMemberInfo (db : DB) (idOpt : Option Nat) (nameOpt : Option String)
    (prefsOpt : Option (List Nat)) : HResult × DB :=
  let nameTruthy := match nameOpt with | some s => s != "" | none => false
  if !nameTruthy then (.text 400 "Name is required", db)
  else
    let (res, db1) := runWrite (qUpdateMember db (nameOpt.getD "") idOpt) db
    let env := sendResponse res rowsTransform 200
    -- if (!result || !result.status): the envelope always carries a non-zero status
    if ¬ (env.field "status").truthy then (.text 500 "Unexpected error occurred", db1)
    else if jsEq (env.field "status") (.num 404) then (.text 404 "Member not found", db1)
    else
      let (_, db2) := runWrite (qDeletePreferredEventTypes db1 idOpt) db1
      let db3 :=
        match prefsOpt with
        | some ts =>
          if 0 < ts.length then (runWrite (qInsertPreferredEventTypes db2 idOpt ts) db2).2
          else db2
        | none => db2
      (.json (jsNat (env.field "status")) (.obj
        [("id", .num (idOpt.getD 0)), ("name", .str (nameOpt.getD "")),
         ("preferredEventTypes", .arr ((prefsOpt.getD []).map JsVal.num))]), db3)

/-- `deleteMemberById` (routes/MemberRoutes): the id goes through `Number`
with an `isNaN` check; the existence pre-check compares
`existingMember.length` — a property the envelope object does not have — with
`0`, so it never fires; both junction tables and the member row are then
deleted; finally the handler tests `result.affectedRows` on the envelope,
which is likewise `undefined`, so the 404 arm is taken even after a
successful delete and the 204 success reply is unreachable. -/
def deleteMemberById (db : DB) (idOpt : Option Nat) : HResult × DB :=
  match idOpt with
  | none => (.text 400 "Invalid member ID", db)
  | some m =>
    let env1 := sendResponse (some (qGetMemberById db m)) rowsTransform 200
    if ¬ env1.truthy ∨ jsEq (env1.field "length") (.num 0) then
      (.text 404 "Member not found", db)
    else
      let (_, db1) := runWrite (qDeleteMemberEvents db (some m)) db
      let (_, db2) := runWrite (qDeletePreferredEventTypes db1 (some m)) db1
      let (res3, db3) := runWrite (qDeleteMember db2 m) db2
      let env3 := sendResponse res3 rowsTransform 200
      if ¬ env3.truthy ∨ ¬ (env3.field "affectedRows").truthy then
        (.text 404 "Member not found", db3)
      else (.text 204 "", db3)

/-! ## The route table (www/server/server.js) -/

inductive Method where
  | get | post | put | delete
deriving DecidableEq, Repr

/-- One segment of an Express route pattern. -/
inductive Seg where
  | lit : String → Seg
  | param : String → Seg
deriving DecidableEq, Repr

/-- Does a pattern match a concrete path?  A literal segment must match
exactly; a `:param` segment matches any one segment. -/
def pathMatches : List Seg → List String → Bool
  | [], [] => true
  | .lit s :: ps, x :: xs => s == x && pathMatches ps xs
  | .param _ :: ps, _ :: xs => pathMatches ps xs
  | _, _ => false

/-- Every route registered on the Express app in server.js, in registration
order. -/
def routes : List (Method × List Seg) :=
  [ (.get,    [.lit "events"]),
    (.get,    [.lit "events", .param "id"]),
    (.post,   [.lit "events"]),
    (.put,    [.lit "events", .param "id"]),
    (.delete, [.lit "events", .param "id"]),
    (.get,    [.lit "event-types"]),
    (.get,    [.lit "event-types", .param "id"]),
    (.post,   [.lit "event-types"]),
    (.put,    [.lit "event-types", .param "id"]),
    (.delete, [.lit "event-types", .param "id"]),
    (.get,    [.lit "members"]),
    (.get,    [.lit "members", .param "id"]),
    (.post,   [.lit "members"]),
    (.put,    [.lit "members", .param "id"]),
    (.delete, [.lit "members", .param "id"]) ]

/-- Index of the first registered route matching the request, as Express
dispatches; `none` means no route matches and Express sends its default
404. -/
def routeFor (m : Method) (path : List String) : Option Nat :=
  routes.findIdx? fun r => r.1 == m && pathMatches r.2 path

/-! ## Seed data (estsbike.sql INSERT statements) -/

/-- The store right after estsbike.sql has run: three event types, four
members, five events, and eight rows in each junction table. -/
def seedDB : DB :=
  { eventTypes := [⟨1, "Passeio"⟩, ⟨2, "Competição"⟩, ⟨3, "Treino"⟩],
    members := [⟨1, "Alice Oliveira"⟩, ⟨2, "Bruno Silva"⟩,
                ⟨3, "Carlos Santos"⟩, ⟨4, "Daniela Costa"⟩],
    events := [⟨1, 1, "Passeio pelo parque", "2025-03-10"⟩,
               ⟨2, 2, "Competição de estrada", "2025-03-15"⟩,
               ⟨3, 3, "Treino de resistência", "2025-03-20"⟩,
               ⟨4, 1, "Passeio pela praia", "2025-03-25"⟩,
               ⟨5, 2, "Competição de MTB", "2025-04-01"⟩],
    prefs := [(1, 1), (1, 2), (2, 1), (2, 3), (3, 2), (3, 3), (4, 1), (4, 3)],
    regs := [(1, 1), (1, 2), (2, 1), (2, 3), (3, 2), (3, 5), (4, 1), (4, 3)],
    nextTypeId := 4,
    nextMemberId := 5,
    nextEventId := 6 }

/-! ## Legacy in-browser stores (src/models Member.js / Event.js)

`MemberStoreClass` and `EventStoreClass` keep their entities in an in-memory
array mirrored to localStorage.  Their `delete` finds the entity's index,
throws when absent, splices it out, then re-assigns `id = idx + 1` to every
remaining entity with `forEach` and sets `lastId` to the remaining length. -/

/-- A legacy `Member` as far as `delete` touches it (the preferred-types set
is irrelevant to the re-sequencing). -/
structure LMember where
  id : Nat
  name : String
deriving DecidableEq, Repr

/-- A legacy `Event` as far as `delete` touches it. -/
structure LEvent where
  id : Nat
  typeId : Nat
  name : String
deriving DecidableEq, Repr

/-- `MemberStoreClass.delete`: `none` models the thrown
"Membro não encontrado"; otherwise the new `members` array and `lastId`. -/
def memberStoreDelete (members : List LMember) (idv : Nat) :
    Option (List LMember × Nat) :=
  match members.findIdx? fun m => m.id == idv with
  | none => none
  | some idx =>
    let spliced := members.eraseIdx idx
    let reindexed := spliced.mapIdx fun i m => { m with id := i + 1 }
    some (reindexed, spliced.length)

/-- `EventStoreClass.delete`, with the same splice-and-reindex shape. -/
def eventStoreDelete (events : List LEvent) (idv : Nat) :
    Option (List LEvent × Nat) :=
  match events.findIdx? fun e => e.id == idv with
  | none => none
  | some idx =>
    let spliced := events.eraseIdx idx
    let reindexed := spliced.mapIdx fun i e => { e with id := i + 1 }
    some (reindexed, spliced.length)

/-! ## Claims -/

/-- C1.  The claim says `registerMemberForEvent(m, e)` answers `Conflict`
(HTTP 400, preference mismatch) when member `m` has no preference row for the
type of event `e`, and succeeds with an insert once the row exists.  On the
code as composed, neither happens: the handler array-destructures the
`{status, data}` envelope object returned by `sendResponse`, which is not
iterable, so every request that passes the id check throws a `TypeError`
before any check or insert.  On the seeded store, member 3 and event 1 exist
and member 3 has no preference for event 1's type (1), yet the call crashes
and leaves the store untouched instead of answering 400; the matching call
(member 1, event 4: preference present, not yet registered) crashes just the
same instead of inserting. -/
theorem registerMemberToEvent_crashes_on_preference_mismatch :
    memberExists seedDB 3 = true ∧ eventExists seedDB 1 = true ∧
    (seedDB.events.filter fun e => e.id == 1).map EventRow.typeId = [1] ∧
    (3, 1) ∉ seedDB.prefs ∧
    registerMemberToEvent seedDB (some 3) (some 1) =
      (.crash "TypeError: object is not iterable", seedDB) ∧
    (1, 1) ∈ seedDB.prefs ∧ (1, 4) ∉ seedDB.regs ∧
    registerMemberToEvent seedDB (some 1) (some 4) =
      (.crash "TypeError: object is not iterable", seedDB) :=
  ⟨by decide, by decide, by decide, by decide, rfl, by decide, by decide, rfl⟩

/-- C2.  The claim says a second `registerMemberForEvent(m, e)` answers
`Conflict("already registered")` and leaves the registration table unchanged.
On the seeded store `(1, 1)` is already registered; the repeated call indeed
leaves the table unchanged, but only because it throws the envelope
`TypeError` before reaching the insert — no `Conflict("already registered")`
response exists anywhere in the code (a duplicate insert would be rejected by
the composite primary key and the driver error then swallowed by `execute`
into a 404 envelope, which the handler discards). -/
theorem registerMemberToEvent_second_call_crashes :
    (1, 1) ∈ seedDB.regs ∧
    registerMemberToEvent seedDB (some 1) (some 1) =
      (.crash "TypeError: object is not iterable", seedDB) ∧
    executeJS (Except.map Prod.fst (qRegisterMemberEvent seedDB 1 1)) = none :=
  ⟨by decide, rfl, rfl⟩

/-- C3.  The claim says the gateway maps empty reads and zero-row writes to
404 and any thrown/driver error to 500, never 404.  The first two parts hold,
but a driver error is caught inside `execute`, which returns `undefined`, so
`sendResponse` files it under `!result` and answers 404 "No data found";
`sendResponse`'s own 500 catch never sees driver errors.  Duplicate-key
insert of the already-present registration (1, 1) is a concrete statement
that raises. -/
theorem gateway_maps_driver_error_to_404 :
    (∀ transform okStatus,
      (gatewayOutcome (.ok (.rows [])) transform okStatus).field "status" = .num 404) ∧
    (∀ transform okStatus insertId,
      (gatewayOutcome (.ok (.header 0 insertId)) transform okStatus).field "status" =
        .num 404) ∧
    (∀ transform okStatus,
      (gatewayOutcome (.error ()) transform okStatus).field "status" = .num 404) ∧
    Except.map Prod.fst (qRegisterMemberEvent seedDB 1 1) = .error () :=
  ⟨fun _ _ => rfl, fun _ _ _ => rfl, fun _ _ => rfl, rfl⟩

/-- C5.  The claim says deleting an existing member always proceeds (both
junction tables are cleared first, then the member row) and reports success.
The clearing and the deletes do happen, but the handler then tests
`result.affectedRows` on the gateway envelope — a property the envelope does
not carry — so it answers 404 "Member not found" even though everything was
deleted; the 204 success reply is unreachable.  Evaluated on the seeded
store for member 1, who holds registrations and preferences. -/
theorem deleteMemberById_deletes_but_reports_404 :
    memberExists seedDB 1 = true ∧
    (seedDB.regs.filter fun p => p.1 == 1).length = 2 ∧
    (seedDB.prefs.filter fun p => p.1 == 1).length = 2 ∧
    (deleteMemberById seedDB (some 1)).1 = .text 404 "Member not found" ∧
    (∀ p ∈ (deleteMemberById seedDB (some 1)).2.regs, p.1 ≠ 1) ∧
    (∀ p ∈ (deleteMemberById seedDB (some 1)).2.prefs, p.1 ≠ 1) ∧
    (∀ r ∈ (deleteMemberById seedDB (some 1)).2.members, r.id ≠ 1) :=
  ⟨by decide, by decide, by decide, rfl, by decide, by decide, by decide⟩

/-- C6.  The claim says POST and DELETE on `/members/:memberId/events/:eventId`
are routed to the register/unregister operations.  server.js mounts fifteen
routes, none with more than two path segments; no request of that shape
matches any of them, for any member and event id, so Express answers its
default 404 and the handlers in MemberEventRoutes are never reached. -/
theorem member_event_routes_not_mounted :
    ∀ memberId eventId : String,
      routeFor .post ["members", memberId, "events", eventId] = none ∧
      routeFor .delete ["members", memberId, "events", eventId] = none := by
  intro memberId eventId
  exact ⟨rfl, rfl⟩

/-- C4.  Deleting an EventType is refused with 400 — and the store is left
untouched — whenever it is referenced by an event or by a preference row;
when both dependency counts are zero and the type's row is present (uniquely,
as the primary key guarantees), the delete goes through with a 200 reply and
the row is gone. -/
theorem deleteEventTypeById_guard (db : DB) (t : Nat) (ht : t ≠ 0) :
    (0 < countEventsWithType db t →
      (deleteEventTypeById db (some t)).1 =
        .text 400 "Cannot delete event type that is being used by events" ∧
      (deleteEventTypeById db (some t)).2 = db) ∧
    (countEventsWithType db t = 0 → 0 < countPrefsWithType db t →
      (deleteEventTypeById db (some t)).1 =
        .text 400 "Cannot delete event type that is preferred by members" ∧
      (deleteEventTypeById db (some t)).2 = db) ∧
    (countEventsWithType db t = 0 → countPrefsWithType db t = 0 →
      (db.eventTypes.filter fun r => r.id == t).length = 1 →
      (deleteEventTypeById db (some t)).1 =
        .json 200 (.obj [("message", .str "1 row(s) affected")]) ∧
      ∀ r ∈ (deleteEventTypeById db (some t)).2.eventTypes, r.id ≠ t) := by
  refine ⟨fun hev => ?_, fun hev hpf => ?_, fun hev hpf hone => ?_⟩
  · simp [deleteEventTypeById, optTruthy, ht, qCheckEventsWithType, sendResponse,
      rowsTransform, countRow, JsVal.field, fieldLookup, JsVal.index, JsVal.getE,
      jsGtZero, hev]
  · simp [deleteEventTypeById, optTruthy, ht, qCheckEventsWithType, qCheckMembersWithType,
      sendResponse, rowsTransform, countRow, JsVal.field, fieldLookup, JsVal.index,
      JsVal.getE, jsGtZero, hev, hpf]
  · constructor
    · simp [deleteEventTypeById, optTruthy, ht, qCheckEventsWithType, qCheckMembersWithType,
        sendResponse, rowsTransform, countRow, JsVal.field, fieldLookup, JsVal.index,
        JsVal.getE, jsGtZero, hev, hpf, runWrite, qDeleteEventType, hone, jsEq]
      rfl
    · intro r hr
      simp [deleteEventTypeById, optTruthy, ht, qCheckEventsWithType, qCheckMembersWithType,
        sendResponse, rowsTransform, countRow, JsVal.field, fieldLookup, JsVal.index,
        JsVal.getE, jsGtZero, hev, hpf, runWrite, qDeleteEventType, hone, jsEq] at hr
      exact fun h => by simp [h] at hr

/-- C4 witness: on the seeded store, type 1 has dependent events and type
deletion is refused; dropping every dependent row first, the same delete of
type 1 succeeds and removes the row; and type 3 with events cleared but
preferences kept is refused on the preference count. -/
theorem deleteEventTypeById_guard_witness :
    ((deleteEventTypeById seedDB (some 1)).1 =
        .text 400 "Cannot delete event type that is being used by events" ∧
      (deleteEventTypeById seedDB (some 1)).2 = seedDB) ∧
    ((deleteEventTypeById { seedDB with events := [], regs := [] } (some 3)).1 =
        .text 400 "Cannot delete event type that is preferred by members" ∧
      (deleteEventTypeById { seedDB with events := [], regs := [] } (some 3)).2 =
        { seedDB with events := [], regs := [] }) ∧
    ((deleteEventTypeById { seedDB with events := [], prefs := [], regs := [] }
        (some 1)).1 = .json 200 (.obj [("message", .str "1 row(s) affected")]) ∧
      ∀ r ∈ (deleteEventTypeById { seedDB with events := [], prefs := [], regs := [] }
        (some 1)).2.eventTypes, r.id ≠ 1) :=
  ⟨(deleteEventTypeById_guard seedDB 1 (by decide)).1 (by decide),
   (deleteEventTypeById_guard { seedDB with events := [], regs := [] } 3
      (by decide)).2.1 (by decide) (by decide),
   (deleteEventTypeById_guard { seedDB with events := [], prefs := [], regs := [] } 1
      (by decide)).2.2 (by decide) (by decide) (by decide)⟩

/-- C7 counterexample.  The claim says an update on an absent id yields 404
regardless of the field content, existence being checked before validation.
On the code the order is the other way around: no entity has id 99 in the
seeded store, yet updating event type 99 (or member 99) with the name absent
answers 400 "Name is required", not 404. -/
theorem update_absent_id_missing_name_answers_400 :
    (∀ r ∈ seedDB.eventTypes, r.id ≠ 99) ∧
    (updateEventTypeById seedDB (some 99) none).1 = .text 400 "Name is required" ∧
    (∀ r ∈ seedDB.members, r.id ≠ 99) ∧
    (updateMemberInfo seedDB (some 99) none none).1 = .text 400 "Name is required" :=
  ⟨by decide, rfl, by decide, rfl⟩

/-- C7 amended.  `update` validates the name's presence first (400 even when
the id is absent); once a non-empty name is supplied, an update on an absent
id matches zero rows and the gateway's zero-rows-affected normalization
yields the claimed 404, with the store untouched. -/
theorem update_absent_id_with_name_answers_404 (db : DB) (t : Nat) (nm : String)
    (ht : t ≠ 0) (hnm : nm ≠ "")
    (habsT : ∀ r ∈ db.eventTypes, r.id ≠ t) (habsM : ∀ r ∈ db.members, r.id ≠ t) :
    (updateEventTypeById db (some t) (some nm)).1 =
      .text 404 "No data found or affected" ∧
    (updateEventTypeById db (some t) (some nm)).2 = db ∧
    (updateMemberInfo db (some t) (some nm) none).1 = .text 404 "Member not found" ∧
    (updateMemberInfo db (some t) (some nm) none).2 = db := by
  have hanyT : (db.eventTypes.any fun r => r.id == t) = false := by
    simp only [List.any_eq_false, beq_iff_eq]
    exact habsT
  have hfilT : db.eventTypes.filter (fun r => r.id == t) = [] :=
    List.filter_eq_nil_iff.mpr fun r hr => by simp [habsT r hr]
  have hmapT : db.eventTypes.map
      (fun r => if r.id = t then (⟨r.id, nm⟩ : EventTypeRow) else r) = db.eventTypes := by
    rw [List.map_congr_left fun r hr => ?_, List.map_id]
    rw [if_neg (habsT r hr)]
    rfl
  have hfilM : db.members.filter (fun r => r.id == t) = [] :=
    List.filter_eq_nil_iff.mpr fun r hr => by simp [habsM r hr]
  have hmapM : db.members.map
      (fun r => if r.id = t then (⟨r.id, nm⟩ : MemberRow) else r) = db.members := by
    rw [List.map_congr_left fun r hr => ?_, List.map_id]
    rw [if_neg (habsM r hr)]
    rfl
  refine ⟨?_, ?_, ?_, ?_⟩
  · simp [updateEventTypeById, optTruthy, ht, hnm, qUpdateEventType, runWrite,
      sendResponse, hanyT, hfilT, jsEq, JsVal.field, fieldLookup, jsNat, jsStr]
  · simp [updateEventTypeById, optTruthy, ht, hnm, qUpdateEventType, runWrite,
      sendResponse, hanyT, hfilT, jsEq, JsVal.field, fieldLookup, jsNat, jsStr, hmapT]
  · simp [updateMemberInfo, hnm, qUpdateMember, runWrite, sendResponse, hfilM,
      jsEq, JsVal.field, fieldLookup, JsVal.truthy]
  · simp [updateMemberInfo, hnm, qUpdateMember, runWrite, sendResponse, hfilM,
      jsEq, JsVal.field, fieldLookup, JsVal.truthy, hmapM]

/-- C7 amended witness: id 99 is absent from both tables of the seeded store;
with the name "Estrada" supplied the two update routes answer 404 and leave
the store unchanged. -/
theorem update_absent_id_with_name_answers_404_witness :
    (updateEventTypeById seedDB (some 99) (some "Estrada")).1 =
      .text 404 "No data found or affected" ∧
    (updateEventTypeById seedDB (some 99) (some "Estrada")).2 = seedDB ∧
    (updateMemberInfo seedDB (some 99) (some "Estrada") none).1 =
      .text 404 "Member not found" ∧
    (updateMemberInfo seedDB (some 99) (some "Estrada") none).2 = seedDB :=
  update_absent_id_with_name_answers_404 seedDB 99 "Estrada" (by decide) (by decide)
    (by decide) (by decide)

/-- C8 counterexample.  The claim says a create whose name is absent, empty,
or whitespace-only (empty after trimming) fails with 400 and inserts
nothing.  The server routes only test `if (!name)`: the whitespace-only name
" " is truthy, so creating an event type named " " on the seeded store
answers 201 and the row is inserted — never trimmed, never rejected. -/
theorem create_accepts_whitespace_only_name :
    (createEventType seedDB (some " ")).1 =
      .json 201 (.obj [("message", .str "1 row(s) affected")]) ∧
    (⟨4, " "⟩ : EventTypeRow) ∈ (createEventType seedDB (some " ")).2.eventTypes :=
  ⟨rfl, by decide⟩

/-- C8 amended.  The server-side creates reject only an absent or empty-string
name (JavaScript falsiness), answering 400 "Name is required" with the store
untouched; whitespace-only names pass the check (trimming is enforced only by
the legacy client-side validators, not by these routes). -/
theorem create_rejects_absent_or_empty_name (db : DB) (nameOpt : Option String)
    (prefsOpt : Option (List Nat)) (h : nameOpt = none ∨ nameOpt = some "") :
    createEventType db nameOpt = (.text 400 "Name is required", db) ∧
    createMember db nameOpt prefsOpt = (.text 400 "Name is required", db) := by
  rcases h with h | h <;> subst h <;> exact ⟨rfl, rfl⟩

/-- C8 amended witness: the empty-name create is refused on the seeded store
and changes nothing. -/
theorem create_rejects_absent_or_empty_name_witness :
    createEventType seedDB (some "") = (.text 400 "Name is required", seedDB) ∧
    createMember seedDB (some "") none = (.text 400 "Name is required", seedDB) :=
  create_rejects_absent_or_empty_name seedDB (some "") none (Or.inr rfl)

/-- A `forEach` that overwrites each element's id with its position plus one
produces exactly the id sequence `1..n`. -/
theorem mapIdx_map_eq_range' {α β : Type} (l : List α) (f : Nat → α → β) (g : β → Nat)
    (h : ∀ i a, g (f i a) = i + 1) : (l.mapIdx f).map g = List.range' 1 l.length := by
  apply List.ext_getElem
  · simp
  · intro i h1 h2
    have hi : i < l.length := by simpa using h2
    simp only [List.getElem_map]
    rw [List.getElem_range'_1]
    have hmi := List.get_mapIdx l f i hi
    simp only [List.get_eq_getElem] at hmi
    rw [hmi, h, Nat.add_comm]

/-- C9.  In the legacy in-browser stores, every successful delete re-sequences
the surviving entities' ids to the contiguous range `1..n` in list order and
stores `lastId = n`, for both the member store and the event store. -/
theorem legacy_delete_resequences_ids (ms : List LMember) (es : List LEvent)
    (mid eid : Nat) (msOut : List LMember × Nat) (esOut : List LEvent × Nat)
    (hm : memberStoreDelete ms mid = some msOut)
    (he : eventStoreDelete es eid = some esOut) :
    msOut.1.map LMember.id = List.range' 1 msOut.1.length ∧ msOut.2 = msOut.1.length ∧
    esOut.1.map LEvent.id = List.range' 1 esOut.1.length ∧ esOut.2 = esOut.1.length := by
  unfold memberStoreDelete at hm
  unfold eventStoreDelete at he
  cases hfm : ms.findIdx? fun m => m.id == mid with
  | none => rw [hfm] at hm; exact absurd hm (by simp)
  | some midx =>
    rw [hfm] at hm
    simp only [Option.some.injEq] at hm
    cases hfe : es.findIdx? fun e => e.id == eid with
    | none => rw [hfe] at he; exact absurd he (by simp)
    | some eidx =>
      rw [hfe] at he
      simp only [Option.some.injEq] at he
      subst hm
      subst he
      refine ⟨?_, ?_, ?_, ?_⟩
      · dsimp only
        rw [List.length_mapIdx]
        exact mapIdx_map_eq_range' _ _ _ fun i a => rfl
      · dsimp only
        rw [List.length_mapIdx]
      · dsimp only
        rw [List.length_mapIdx]
        exact mapIdx_map_eq_range' _ _ _ fun i a => rfl
      · dsimp only
        rw [List.length_mapIdx]

/-- C9 witness: deleting member 1 of the two sample members and event 2 of
the two sample events re-sequences the survivors to ids starting at 1 with
`lastId` equal to the new length. -/
theorem legacy_delete_resequences_ids_witness :
    ([⟨1, "Maria Santos"⟩] : List LMember).map LMember.id = List.range' 1 1 ∧
      (1 : Nat) = 1 ∧
    ([⟨1, 1, "Passeio na Cidade"⟩] : List LEvent).map LEvent.id = List.range' 1 1 ∧
      (1 : Nat) = 1 :=
  legacy_delete_resequences_ids
    [⟨1, "João Silva"⟩, ⟨2, "Maria Santos"⟩]
    [⟨1, 1, "Passeio na Cidade"⟩, ⟨2, 2, "Competição Regional"⟩]
    1 2 ([⟨1, "Maria Santos"⟩], 1) ([⟨1, 1, "Passeio na Cidade"⟩], 1)
    (by decide) (by decide)

/-- The store state `updateMemberInfo` leaves behind once past its name check
and 404 check: the member's name rewritten, the member's preference rows
deleted, and — only when a non-empty list was sent — the bulk re-insert
attempted. -/
def updMemberState (db : DB) (m : Nat) (nm : String) (prefsOpt : Option (List Nat)) : DB :=
  let db1 : DB :=
    { db with members := db.members.map fun r => if r.id == m then ⟨r.id, nm⟩ else r }
  let db2 : DB := { db1 with prefs := db.prefs.filter fun p => p.1 != m }
  match prefsOpt with
  | none => db2
  | some ts =>
    if 0 < ts.length then (runWrite (qInsertPreferredEventTypes db2 (some m) ts) db2).2
    else db2

/-- For an existing member and a truthy name, `updateMemberInfo` reaches the
delete-then-reinsert sequence and ends in `updMemberState`. -/
theorem updateMemberInfo_state (db : DB) (m : Nat) (nm : String)
    (prefsOpt : Option (List Nat)) (hm : memberExists db m = true) (hnm : nm ≠ "") :
    (updateMemberInfo db (some m) (some nm) prefsOpt).2 = updMemberState db m nm prefsOpt := by
  have haff : (db.members.filter fun r => r.id == m).length ≠ 0 := by
    simp only [memberExists, List.any_eq_true] at hm
    obtain ⟨r, hr, hid⟩ := hm
    have hmem : r ∈ db.members.filter fun r => r.id == m :=
      List.mem_filter.mpr ⟨hr, hid⟩
    exact Nat.pos_iff_ne_zero.mp (List.length_pos.mpr (List.ne_nil_of_mem hmem))
  simp [updateMemberInfo, updMemberState, hnm, qUpdateMember, runWrite, sendResponse, haff,
    JsVal.field, fieldLookup, JsVal.truthy, jsEq, qDeletePreferredEventTypes]
  cases prefsOpt <;> simp [runWrite]

/-- C10.  The claim says the member's preference set is deleted and then
rebuilt from the request's `preferredEventTypes` list — which is what the
source's own comment ("Remove old preferences and insert new ones") intends.
The delete does run, but the rebuild statement is the `VALUES ?` bulk insert
issued through `connection.execute`, which raises for every input (a nested
array cannot be expanded in a prepared statement) and whose swallowed error
the handler never checks: every update of an existing member with a truthy
name leaves the member with zero preference rows, whatever list was sent,
while the handler replies as if the list had been stored.  The wipe
consequences the claim draws (omitted/empty list ⇒ zero rows; nothing
preserved unless restated) do hold, but only because nothing is ever
rebuilt. -/
theorem updateMemberInfo_wipes_but_never_rebuilds (db : DB) (m : Nat) (nm : String)
    (prefsOpt : Option (List Nat)) (hm : memberExists db m = true) (hnm : nm ≠ "") :
    prefsFor (updateMemberInfo db (some m) (some nm) prefsOpt).2 m = [] := by
  rw [updateMemberInfo_state db m nm prefsOpt hm hnm]
  have hfilnil : ∀ l : List (Nat × Nat),
      (l.filter fun p => p.1 != m).filter (fun p => p.1 == m) = [] := fun l =>
    List.filter_eq_nil_iff.mpr fun p hp => by
      have h2 := (List.mem_filter.mp hp).2
      simp only [bne_iff_ne, ne_eq] at h2
      simp [h2]
  cases prefsOpt with
  | none => simp [updMemberState, prefsFor, hfilnil]
  | some ts =>
    by_cases hlen : 0 < ts.length <;>
      simp [updMemberState, hlen, qInsertPreferredEventTypes, runWrite, prefsFor, hfilnil]

/-- C10 witness, showing the divergence concretely: member 1 of the seeded
store holds preferences [1, 2]; updating them to the well-formed list [2, 3]
(no duplicates, both types exist) answers 200 echoing [2, 3], yet the member
ends with zero preference rows — the claimed rebuild never happens. -/
theorem updateMemberInfo_wipes_but_never_rebuilds_witness :
    memberExists seedDB 1 = true ∧
    (∀ t ∈ [2, 3], eventTypeExists seedDB t = true) ∧ [2, 3].Nodup ∧
    prefsFor seedDB 1 = [1, 2] ∧
    (updateMemberInfo seedDB (some 1) (some "Ana") (some [2, 3])).1 =
      .json 200 (.obj [("id", .num 1), ("name", .str "Ana"),
                       ("preferredEventTypes", .arr [.num 2, .num 3])]) ∧
    prefsFor (updateMemberInfo seedDB (some 1) (some "Ana") (some [2, 3])).2 1 = [] :=
  ⟨by decide, by decide, by decide, by decide, rfl,
   updateMemberInfo_wipes_but_never_rebuilds seedDB 1 "Ana" (some [2, 3])
     (by decide) (by decide)⟩

end ESTSBike
